import Mathlib

/-!
# Verification of the Elephant Backup decision/orchestration layer

A shallow embedding of the decision logic of the Elephant Backup tool
(snapshot-set model, backup orchestration, retention pruning, process
pipeline, accessibility prechecks), with theorems about the embedded
functions.

Conventions:
* JavaScript arrays become `List`; `null`-able results become `Option`.
* A thrown `Error` becomes `Except.error`.
* External commands are never run: spawning is modelled as an event log
  (`List String` of spawned command lines), and command output is an
  oracle function `String → String` supplied as a parameter.
* JavaScript `Date` values become `Int` milliseconds since the epoch;
  `setDate(getDate() + n)` becomes adding `n * msPerDay`, and
  `setHours(getHours() - n)` becomes subtracting `n * msPerHour`.
-/

namespace ElephantBackup

/-! ## Configure (src/src/Configure.js) -/

namespace Configure

/-- Embedding of `Configure.PREFIX_SNAPSHOT` in the source: the leading tag of the name of
snapshots, `'elephant'`. -/
def SNAPSHOT_NAME_HEAD : String := "elephant"

/-- The number of weekly snapshots keeping. -/
def SNAPSHOT_KEEP_WEEKS : Nat := 104

/-- The number of daily snapshots keeping. -/
def SNAPSHOT_KEEP_DAYS : Nat := 30

/-- The number of hourly snapshots keeping. -/
def SNAPSHOT_KEEP_HOURS : Nat := 24

end Configure

/-! ## SnapshotList (src/src/ZfsFilesystem.js)

A `SnapshotList` holds the snapshot names (the part after `@`) of one
filesystem, in the ascending creation order produced by
`zfs list -s creation`.  We model it as the plain `List String` of names. -/

namespace SnapshotList

/-- Embedding of `SnapshotList.findLatest(snapshots)`:
`common = this.#snapshots.filter(s => filter.includes(s))`, then
`common.length > 0 ? common[common.length - 1] : null`. -/
def findLatest (self other : List String) : Option String :=
  let common := self.filter (fun s => other.contains s)
  if 0 < common.length then common.get? (common.length - 1) else none

/-- Embedding of `SnapshotList.getEarliest()`:
`this.#snapshots.length > 0 ? this.#snapshots[0] : null`. -/
def getEarliest (snapshots : List String) : Option String :=
  if 0 < snapshots.length then snapshots.get? 0 else none

/-- Embedding of `SnapshotList.getLatest()`:
`length > 0 ? snapshots[length - 1] : null`. -/
def getLatest (snapshots : List String) : Option String :=
  if 0 < snapshots.length then snapshots.get? (snapshots.length - 1) else none

end SnapshotList

/-! ### Generic facts about the last element of a filtered list -/

theorem contains_true_iff (l : List String) (a : String) :
    l.contains a = true ↔ a ∈ l := by
  simp [List.contains, List.elem_iff]

theorem getLast?_eq_none_iff_nil {α : Type} (l : List α) :
    l.getLast? = none ↔ l = [] := by
  cases l with
  | nil => simp
  | cons a t => simp [List.getLast?_cons]

theorem getLast?_filter_none {α : Type} (p : α → Bool) (l : List α) :
    (l.filter p).getLast? = none ↔ ∀ a ∈ l, p a = false := by
  rw [getLast?_eq_none_iff_nil, List.filter_eq_nil]
  constructor
  · intro h a ha
    simpa using h a ha
  · intro h a ha
    simp [h a ha]

theorem getLast?_filter_some {α : Type} (p : α → Bool) (l : List α) (x : α)
    (h : (l.filter p).getLast? = some x) :
    p x = true ∧ ∃ i, ∃ hi : i < l.length, l.get ⟨i, hi⟩ = x ∧
      ∀ j, ∀ hj : j < l.length, p (l.get ⟨j, hj⟩) = true → j ≤ i := by
  induction l with
  | nil => simp at h
  | cons a t ih =>
    by_cases hp : p a = true
    · rw [List.filter_cons_of_pos hp] at h
      cases hft : t.filter p with
      | nil =>
        rw [hft] at h
        simp at h
        subst h
        refine ⟨hp, 0, by simp, rfl, ?_⟩
        intro j hj hpj
        cases j with
        | zero => exact Nat.le_refl 0
        | succ k =>
          exfalso
          have hk : k < t.length := Nat.lt_of_succ_lt_succ hj
          have := (getLast?_filter_none p t).mp (by rw [hft]; rfl)
              (t.get ⟨k, hk⟩) (t.get_mem _ _)
          rw [List.get_cons_succ] at hpj
          rw [hpj] at this
          exact Bool.noConfusion this
      | cons b s =>
        rw [hft, List.getLast?_cons_cons] at h
        rw [← hft] at h
        obtain ⟨hpx, i, hi, hget, hmax⟩ := ih h
        refine ⟨hpx, i + 1, Nat.succ_lt_succ hi, by simpa using hget, ?_⟩
        intro j hj hpj
        cases j with
        | zero => exact Nat.zero_le _
        | succ k =>
          have hk : k < t.length := Nat.lt_of_succ_lt_succ hj
          rw [List.get_cons_succ] at hpj
          exact Nat.succ_le_succ (hmax k hk hpj)
    · rw [List.filter_cons_of_neg hp] at h
      obtain ⟨hpx, i, hi, hget, hmax⟩ := ih h
      refine ⟨hpx, i + 1, Nat.succ_lt_succ hi, by simpa using hget, ?_⟩
      intro j hj hpj
      cases j with
      | zero =>
        exact absurd hpj hp
      | succ k =>
        have hk : k < t.length := Nat.lt_of_succ_lt_succ hj
        rw [List.get_cons_succ] at hpj
        exact Nat.succ_le_succ (hmax k hk hpj)

theorem findLatest_eq_getLast? (A B : List String) :
    SnapshotList.findLatest A B = (A.filter (fun s => B.contains s)).getLast? := by
  unfold SnapshotList.findLatest
  cases hl : A.filter (fun s => B.contains s) with
  | nil => simp
  | cons a t =>
    have hpos : 0 < (a :: t).length := Nat.succ_pos _
    simp only [if_pos hpos]
    rw [List.getLast?_eq_get?]

/-- C1: `A.findLatest(B)` is either `none` when the two lists share no
snapshot name, or some name present in both lists whose index in `A` is the
highest index in `A` of any name in the intersection. -/
theorem findLatest_correct (A B : List String) :
    (SnapshotList.findLatest A B = none ↔ ∀ s ∈ A, s ∉ B) ∧
    ∀ x, SnapshotList.findLatest A B = some x →
      x ∈ A ∧ x ∈ B ∧ ∃ i, ∃ hi : i < A.length, A.get ⟨i, hi⟩ = x ∧
        ∀ j, ∀ hj : j < A.length, A.get ⟨j, hj⟩ ∈ B → j ≤ i := by
  rw [findLatest_eq_getLast?]
  constructor
  · rw [getLast?_filter_none]
    constructor
    · intro h s hs hmem
      have hc : B.contains s = true := (contains_true_iff B s).mpr hmem
      rw [h s hs] at hc
      exact Bool.noConfusion hc
    · intro h s hs
      have : ¬ B.contains s = true := fun hc => h s hs ((contains_true_iff B s).mp hc)
      simpa using this
  · intro x hx
    obtain ⟨hpx, i, hi, hget, hmax⟩ := getLast?_filter_some _ _ _ hx
    rw [contains_true_iff] at hpx
    refine ⟨?_, hpx, i, hi, hget, ?_⟩
    · rw [← hget]
      exact A.get_mem _ _
    · intro j hj hmem
      exact hmax j hj ((contains_true_iff B _).mpr hmem)

/-- Witness for C1 at a concrete input: `findLatest ["s1","s2","s3"] ["s2","s1"]`
returns `"s2"`, a common name at the highest common index of the first list. -/
theorem findLatest_correct_witness :
    "s2" ∈ (["s1", "s2", "s3"] : List String) ∧ "s2" ∈ (["s2", "s1"] : List String) ∧
      ∃ i, ∃ hi : i < (["s1", "s2", "s3"] : List String).length,
        (["s1", "s2", "s3"] : List String).get ⟨i, hi⟩ = "s2" ∧
        ∀ j, ∀ hj : j < (["s1", "s2", "s3"] : List String).length,
          (["s1", "s2", "s3"] : List String).get ⟨j, hj⟩ ∈ (["s2", "s1"] : List String) → j ≤ i :=
  (findLatest_correct ["s1", "s2", "s3"] ["s2", "s1"]).2 "s2" (by decide)

/-! ## BackupSubCommand (src/src/SubCommand.js, `BackupSubCommand.#backup`)

`#backup` creates the archive child dataset if missing, takes the new
snapshot, fetches both snapshot lists (the primary list therefore ends with
the snapshot just taken, since `zfs list` sorts by creation), and then
decides which transfers to run.  The transfers performed through
`ZfsFilesystem.backup` are modelled as a list of `Transfer` actions. -/

/-- One `primary.backup(...)` call: a full send of a single snapshot, or an
incremental send of the inclusive range `first..last`. -/
inductive Transfer where
  | full (snap : String)
  | incremental (first last : String)
deriving DecidableEq

/-- Outcome of the decision part of `BackupSubCommand.#backup`: the transfers
performed, and whether `Archive is Up-To-Date` was printed. -/
structure BackupOutcome where
  transfers : List Transfer
  upToDateReported : Bool
deriving DecidableEq

namespace BackupSubCommand

/-- The decision logic of `BackupSubCommand.#backup` after the new snapshot
was taken and both lists were fetched (lines 608-648): find the latest common
snapshot; on the first backup send the earliest primary snapshot alone and
continue from it; then, unless the common point already is the primary's
latest snapshot, send the incremental range `common..latest`.
`throw new Error` on a missing earliest snapshot becomes `Except.error`. -/
def backup (primarySnapshotList archiveSnapshotList : List String) :
    Except String BackupOutcome :=
  let latestOfCommonSnapshot := SnapshotList.findLatest primarySnapshotList archiveSnapshotList
  -- the `when the first backup` block, which may throw and otherwise
  -- reassigns `latestOfCommonSnapshot` after sending the full baseline
  let afterFirst : Except String (String × List Transfer) :=
    match latestOfCommonSnapshot with
    | some c => .ok (c, [])
    | none =>
      match SnapshotList.getEarliest primarySnapshotList with
      | none => .error "No snapshots on the primary"
      | some earliestPrimarySnapshot =>
        .ok (earliestPrimarySnapshot, [Transfer.full earliestPrimarySnapshot])
  match afterFirst with
  | .error e => .error e
  | .ok (latestOfCommonSnapshot, firstTransfers) =>
    let latestSnapshot :=
      (SnapshotList.getLatest primarySnapshotList).getD "Unexpected condition"
    if latestOfCommonSnapshot == latestSnapshot then
      .ok ⟨firstTransfers, true⟩
    else
      .ok ⟨firstTransfers ++ [Transfer.incremental latestOfCommonSnapshot latestSnapshot],
        false⟩

end BackupSubCommand

/-- When a common ancestor exists, `#backup` skips the first-backup block and
performs the incremental transfer exactly when the ancestor is not already
the primary's latest snapshot. -/
theorem backup_of_common (primaryList archiveList : List String)
    (common latest : String)
    (hc : SnapshotList.findLatest primaryList archiveList = some common)
    (hl : SnapshotList.getLatest primaryList = some latest) :
    BackupSubCommand.backup primaryList archiveList =
      (if common == latest then .ok ⟨[], true⟩
       else .ok ⟨[Transfer.incremental common latest], false⟩) := by
  unfold BackupSubCommand.backup
  rw [hc, hl]
  rfl

/-- When no common ancestor exists, `#backup` first sends the earliest
primary snapshot alone and then continues from it. -/
theorem backup_of_no_common (primaryList archiveList : List String)
    (earliest latest : String)
    (hc : SnapshotList.findLatest primaryList archiveList = none)
    (he : SnapshotList.getEarliest primaryList = some earliest)
    (hl : SnapshotList.getLatest primaryList = some latest) :
    BackupSubCommand.backup primaryList archiveList =
      (if earliest == latest then .ok ⟨[Transfer.full earliest], true⟩
       else .ok ⟨[Transfer.full earliest, Transfer.incremental earliest latest], false⟩) := by
  unfold BackupSubCommand.backup
  rw [hc, he, hl]
  rfl

/-- Modelled from the spec: the external storage engine's send/receive
semantics (§6), which are not part of this repository.  An incremental send
`first..last` delivers the snapshots of the sending filesystem that lie
strictly after `first` up to and including `last`. -/
def sendSegment (primaryList : List String) (first last : String) : List String :=
  (((primaryList.dropWhile (fun s => s != first)).drop 1).takeWhile (fun s => s != last)) ++ [last]

/-- Modelled from the spec: the effect of one transfer on the archive
mirror's snapshot list (§6). -/
def applyTransfer (primaryList : List String) (archiveList : List String) :
    Transfer → List String
  | .full snap => archiveList ++ [snap]
  | .incremental first last => archiveList ++ sendSegment primaryList first last

/-- Result of one whole `#backup` run for one target. -/
structure RunResult where
  outcome : BackupOutcome
  primaryAfter : List String
  archiveAfter : List String
deriving DecidableEq

/-- One `BackupSubCommand.#backup` run for one (primary, archive) pair:
`takeNewSnapshot` appends the new snapshot name to the primary's
creation-ordered list, the decision logic of `BackupSubCommand.backup` runs
on the fetched lists, and the resulting transfers update the archive mirror. -/
def backupRun (newSnapshotName : String) (primaryList archiveList : List String) :
    Except String RunResult :=
  match BackupSubCommand.backup (primaryList ++ [newSnapshotName]) archiveList with
  | .error e => .error e
  | .ok outcome =>
      .ok ⟨outcome, primaryList ++ [newSnapshotName],
        outcome.transfers.foldl (applyTransfer (primaryList ++ [newSnapshotName]))
          archiveList⟩

/-- C2: whenever a common ancestor exists and differs from the primary's
latest snapshot, `#backup` performs exactly one incremental transfer, of the
range `commonAncestor..latest`, and does not report the archive up to date. -/
theorem backup_incremental_range (primaryList archiveList : List String)
    (common latest : String)
    (hc : SnapshotList.findLatest primaryList archiveList = some common)
    (hl : SnapshotList.getLatest primaryList = some latest)
    (hne : common ≠ latest) :
    BackupSubCommand.backup primaryList archiveList =
      .ok ⟨[Transfer.incremental common latest], false⟩ := by
  rw [backup_of_common primaryList archiveList common latest hc hl]
  rw [if_neg (by simpa using hne)]

/-- Witness for C2 at the spec's scenario: primary `[s1, s2, s3]`, archive
`[s1, s2]` — the transfer is the incremental range `s2..s3`, not `s1..s3`. -/
theorem backup_incremental_range_witness :
    BackupSubCommand.backup ["s1", "s2", "s3"] ["s1", "s2"] =
      .ok ⟨[Transfer.incremental "s2" "s3"], false⟩ :=
  backup_incremental_range ["s1", "s2", "s3"] ["s1", "s2"] "s2" "s3"
    (by decide) (by decide) (by decide)

/-- Counterexample to C3 as stated: after a first backup run on a fresh
primary and archive (which performs one full transfer of the new snapshot
`"s1"` and reports the archive up to date, leaving the mirror at `["s1"]`), a
second run with no intervening changes still takes a new snapshot `"s2"` and
performs one further (incremental) transfer — not zero transfers. -/
theorem backup_second_run_transfers :
    backupRun "s1" [] [] = .ok ⟨⟨[Transfer.full "s1"], true⟩, ["s1"], ["s1"]⟩ ∧
    backupRun "s2" ["s1"] ["s1"] =
      .ok ⟨⟨[Transfer.incremental "s1" "s2"], false⟩, ["s1", "s2"], ["s1", "s2"]⟩ :=
  ⟨rfl, rfl⟩

/-- C3 amended: the first backup run on a fresh primary and archive performs
exactly one full transfer of the newly taken snapshot and reports the archive
up to date; a subsequent run with no intervening changes takes another
snapshot and performs exactly one incremental transfer of the range
`previousSnapshot..newSnapshot` — one transfer, not zero. -/
theorem backup_first_and_second_run (s1 s2 : String) (hne : s1 ≠ s2) :
    backupRun s1 [] [] = .ok ⟨⟨[Transfer.full s1], true⟩, [s1], [s1]⟩ ∧
    backupRun s2 [s1] [s1] =
      .ok ⟨⟨[Transfer.incremental s1 s2], false⟩, [s1, s2], [s1, s2]⟩ := by
  have e11 : (s1 == s1) = true := beq_self_eq_true s1
  have e12 : (s1 == s2) = false := by simpa using hne
  have e21 : (s2 == s1) = false := by simpa using Ne.symm hne
  constructor
  · have hb : BackupSubCommand.backup [s1] [] = .ok ⟨[Transfer.full s1], true⟩ := by
      rw [backup_of_no_common [s1] [] s1 s1 rfl rfl rfl, if_pos e11]
    unfold backupRun
    rw [List.nil_append, hb]
    simp [applyTransfer]
  · have hfl : SnapshotList.findLatest [s1, s2] [s1] = some s1 := by
      unfold SnapshotList.findLatest
      rw [List.filter_cons, List.filter_cons]
      simp only [List.contains_cons, List.contains_nil, e11, e21, Bool.true_or,
        Bool.false_or, if_pos, Bool.or_false, if_neg, Bool.false_eq_true,
        not_false_iff, List.filter_nil]
      rfl
    have hb : BackupSubCommand.backup [s1, s2] [s1] =
        .ok ⟨[Transfer.incremental s1 s2], false⟩ := by
      rw [backup_of_common [s1, s2] [s1] s1 s2 hfl rfl, if_neg (by simp [e12])]
    unfold backupRun
    rw [List.cons_append, List.nil_append, hb]
    have hseg : sendSegment [s1, s2] s1 s2 = [s2] := by
      unfold sendSegment
      rw [List.dropWhile_cons]
      simp only [bne_self_eq_false, Bool.false_eq_true, if_neg, not_false_iff,
        List.drop_succ_cons, List.drop_zero, List.takeWhile_cons, if_false]
      rfl
    simp [applyTransfer, hseg]

/-- Witness for the amended C3 at concrete snapshot names. -/
theorem backup_first_and_second_run_witness :
    backupRun "a" [] [] = .ok ⟨⟨[Transfer.full "a"], true⟩, ["a"], ["a"]⟩ ∧
    backupRun "b" ["a"] ["a"] =
      .ok ⟨⟨[Transfer.incremental "a" "b"], false⟩, ["a", "b"], ["a", "b"]⟩ :=
  backup_first_and_second_run "a" "b" (by decide)

/-! ## Process (src/Process.js)

A `Process` is a command line plus an optional piped successor
(`#pipedProcess`); `Process.tail cmd` models a process whose `#pipedProcess`
is `null`, `Process.piped cmd next` one whose `#pipedProcess` is `next`.
Spawning an OS process is modelled as an event in a log of spawned command
lines; the stdout an OS process would produce is an oracle
`exec : String → String`. -/

inductive Process where
  | tail (commandWithArguments : String)
  | piped (commandWithArguments : String) (pipedProcess : Process)
deriving DecidableEq

namespace Process

/-- The command lines of the stages of a chain, head first. -/
def stages : Process → List String
  | .tail cmd => [cmd]
  | .piped cmd next => cmd :: stages next

/-- Embedding of `Process.#spawnDryRunAsync`: walks the piped chain without spawning any
OS process (`result = ''`, recursing into `#pipedProcess` when present). The
first component is the log of spawned command lines, the second the returned
result. -/
def spawnDryRunAsync : Process → List String × String
  | .tail _ => ([], "")
  | .piped _ next => ([], (spawnDryRunAsync next).2)

/-- Embedding of `Process.spawnAsync`: spawns the stage's command, pipes its stdout into
the successor when present, and returns `stdout[0]` — the successor's result
for a piped stage, the own captured stdout for the last stage. -/
def spawnAsync (exec : String → String) : Process → List String × String
  | .tail cmd => ([cmd], exec cmd)
  | .piped cmd next =>
      let n := spawnAsync exec next
      (cmd :: n.1, n.2)

/-- Embedding of `Process.spawnIfNoDryRunAsync`: take the dry-run path iff the dry-run
option is enabled. -/
def spawnIfNoDryRunAsync (exec : String → String) (dryRun : Bool) (p : Process) :
    List String × String :=
  if dryRun then spawnDryRunAsync p else spawnAsync exec p

end Process

/-! ## ZfsUtilities (src/src/ZfsUtilities.js)

Each operation builds its command line from the fixed `ZfsCommands`
templates and runs it through a `Process`.  Every operation returns the log
of spawned command lines together with the operation's own return value. -/

namespace ZfsCommands

def ZFS_LIST_FILESYSTEM : String := "zfs list -H -o name -t filesystem"

def ZFS_LIST_SNAPSHOT : String := "zfs list -H -s creation -o name -t snapshot"

def ZFS_CREATE_DATASET : String := "zfs create -p"

def ZFS_SEND_RAW : String := "zfs send -Rw"

def ZFS_RECV_INCREMENTAL : String := "zfs recv -F -d -x mountpoint"

def ZFS_TAKE_SNAPSHOT_RECURSIVE : String := "zfs snapshot -r"

def ZFS_DESTROY_SNAPSHOT_RECURSIVE : String := "zfs destroy -r"

end ZfsCommands

namespace ZfsUtilities

/-- Embedding of `ZfsUtilities.takeSnapshot`: spawn `zfs snapshot -r filesystem@snapshot`
through `spawnIfNoDryRunAsync` and return the new snapshot long name. -/
def takeSnapshot (exec : String → String) (dryRun : Bool)
    (snapshot filesystem : String) : List String × String :=
  let snapshotLongName := filesystem ++ "@" ++ snapshot
  let command := ZfsCommands.ZFS_TAKE_SNAPSHOT_RECURSIVE ++ " " ++ snapshotLongName
  let r := Process.spawnIfNoDryRunAsync exec dryRun (.tail command)
  (r.1, snapshotLongName)

/-- Embedding of `ZfsUtilities.destroySnapshot`: spawn `zfs destroy -r filesystem@snapshot`
through `spawnIfNoDryRunAsync`. -/
def destroySnapshot (exec : String → String) (dryRun : Bool)
    (snapshot filesystem : String) : List String × String :=
  let command :=
    ZfsCommands.ZFS_DESTROY_SNAPSHOT_RECURSIVE ++ " " ++ filesystem ++ "@" ++ snapshot
  Process.spawnIfNoDryRunAsync exec dryRun (.tail command)

/-- Embedding of `ZfsUtilities.createZfsDataset`: spawn `zfs create -p dataset` through
`spawnIfNoDryRunAsync`. -/
def createZfsDataset (exec : String → String) (dryRun : Bool)
    (dataset : String) : List String × String :=
  let command := ZfsCommands.ZFS_CREATE_DATASET ++ " " ++ dataset
  Process.spawnIfNoDryRunAsync exec dryRun (.tail command)

/-- Embedding of `ZfsUtilities.sendAndReceiveZfsFilesystem`: pipe `zfs send` into
`zfs recv` and run the chain through `spawnIfNoDryRunAsync`. -/
def sendAndReceiveZfsFilesystem (exec : String → String)
    (dryRun verbose : Bool) (archive filesystem first last : String) :
    List String × String :=
  let intermediate := if last == "" then "" else "-I"
  let dryRunFlag := if dryRun then "-n" else ""
  let verboseFlag := if verbose then "-v" else ""
  let firstSnapshot := filesystem ++ "@" ++ first
  let lastSnapshot := if last == "" then last else filesystem ++ "@" ++ last
  let sendCommand := ZfsCommands.ZFS_SEND_RAW ++ " " ++ dryRunFlag ++ " " ++ verboseFlag
      ++ " " ++ intermediate ++ " " ++ firstSnapshot ++ " " ++ lastSnapshot
  let recvCommand := ZfsCommands.ZFS_RECV_INCREMENTAL ++ " " ++ archive
  Process.spawnIfNoDryRunAsync exec dryRun (.piped sendCommand (.tail recvCommand))

end ZfsUtilities

/-- The dry-run walk of any chain spawns nothing and returns the empty
string. -/
theorem spawnDryRunAsync_eq (p : Process) :
    Process.spawnDryRunAsync p = ([], "") := by
  induction p with
  | tail cmd => rfl
  | piped cmd next ih => simp [Process.spawnDryRunAsync, ih]

/-- C4: with the dry-run option enabled, no mutating external command is
spawned: `spawnIfNoDryRunAsync` walks the chain without spawning any OS
process and returns the empty string, and every mutating `ZfsUtilities`
operation (create / snapshot / destroy / send-receive) therefore records an
empty spawn log under dry-run. -/
theorem dryRun_spawns_nothing :
    ∀ (exec : String → String) (p : Process)
      (snapshot filesystem dataset archive first last : String) (verbose : Bool),
      Process.spawnIfNoDryRunAsync exec true p = ([], "") ∧
      (ZfsUtilities.takeSnapshot exec true snapshot filesystem).1 = [] ∧
      (ZfsUtilities.destroySnapshot exec true snapshot filesystem).1 = [] ∧
      (ZfsUtilities.createZfsDataset exec true dataset).1 = [] ∧
      (ZfsUtilities.sendAndReceiveZfsFilesystem exec true verbose
          archive filesystem first last).1 = [] ∧
      (ZfsUtilities.sendAndReceiveZfsFilesystem exec true verbose
          archive filesystem first last).2 = "" := by
  intro exec p snapshot filesystem dataset archive first last verbose
  refine ⟨?_, ?_, ?_, ?_, ?_, ?_⟩ <;>
    simp [Process.spawnIfNoDryRunAsync, spawnDryRunAsync_eq,
      ZfsUtilities.takeSnapshot, ZfsUtilities.destroySnapshot,
      ZfsUtilities.createZfsDataset, ZfsUtilities.sendAndReceiveZfsFilesystem]

/-! ## Error propagation in `Process.#createPromise` (src/Process.js)

On the child's `close` event the promise resolves with the captured stdout
only when the exit code is `0` and no signal terminated the process;
otherwise an `Error` carrying the command line is thrown, so the promise is
never resolved and the failure aborts the pipeline.  The per-stage
termination data is an oracle `term : String → Int × Option String` giving
each command's exit code and terminating signal. -/

/-- Outcome of awaiting a stage's promise (or of `Promise.all` over a
chain): resolve with a captured stdout, or abort with the thrown error. -/
inductive PromiseOutcome where
  | resolved (stdout : String)
  | aborted (err : String)
deriving DecidableEq

/-- The text JavaScript interpolates for a `signal` value. -/
def signalText : Option String → String
  | none => "null"
  | some s => s

/-- The message of the `Error` thrown by the `close` handler. -/
def closeErrorMessage (commandWithArguments : String) (code : Int)
    (signal : Option String) : String :=
  "CMD: \"" ++ commandWithArguments ++ "\" with code: " ++ toString code
    ++ " / signal: " ++ signalText signal

/-- The `close` handler of `Process.#createPromise`: resolve the captured stdout
iff `code == 0` and no signal, otherwise throw the error. -/
def closeOutcome (commandWithArguments stdout : String) (code : Int)
    (signal : Option String) : PromiseOutcome :=
  if code ≠ 0 ∨ signal.isSome then
    .aborted (closeErrorMessage commandWithArguments code signal)
  else
    .resolved stdout

/-- Awaiting `Promise.all` over the promises of a chain's stages
(`Process.spawnAsync`): the pipeline's promise yields the tail stage's
captured stdout only when every stage's promise resolved; a piped stage
captures no stdout of its own. -/
def pipelineOutcome (exec : String → String)
    (term : String → Int × Option String) : Process → PromiseOutcome
  | .tail cmd => closeOutcome cmd (exec cmd) (term cmd).1 (term cmd).2
  | .piped cmd next =>
    match closeOutcome cmd "" (term cmd).1 (term cmd).2 with
    | .aborted e => .aborted e
    | .resolved _ => pipelineOutcome exec term next

/-- A stage's termination data signals failure: nonzero exit code or a
terminating signal. -/
def stageFails (term : String → Int × Option String) (cmd : String) : Prop :=
  (term cmd).1 ≠ 0 ∨ (term cmd).2 ≠ none

instance (term : String → Int × Option String) (cmd : String) :
    Decidable (stageFails term cmd) := by
  unfold stageFails
  infer_instance

theorem closeOutcome_of_fails (cmd stdout : String) (code : Int)
    (signal : Option String) (h : code ≠ 0 ∨ signal ≠ none) :
    closeOutcome cmd stdout code signal =
      .aborted (closeErrorMessage cmd code signal) := by
  unfold closeOutcome
  rw [if_pos]
  rcases h with h | h
  · exact Or.inl h
  · exact Or.inr (Option.isSome_iff_ne_none.mpr h)

/-- C5: whenever some stage of a spawned pipeline closes with a nonzero exit
code or a terminating signal, the pipeline's awaited promise does not
resolve: it aborts with the thrown error of a failing stage, whose message
carries that stage's command line. -/
theorem pipeline_failure_propagates (exec : String → String)
    (term : String → Int × Option String) (p : Process)
    (hfail : ∃ cmd ∈ Process.stages p, stageFails term cmd) :
    (∀ s, pipelineOutcome exec term p ≠ .resolved s) ∧
    ∃ c, c ∈ Process.stages p ∧ stageFails term c ∧
      pipelineOutcome exec term p =
        .aborted (closeErrorMessage c (term c).1 (term c).2) := by
  induction p with
  | tail cmd =>
    obtain ⟨c, hc, hcf⟩ := hfail
    simp [Process.stages] at hc
    subst hc
    have h := closeOutcome_of_fails c (exec c) (term c).1 (term c).2 hcf
    refine ⟨?_, c, by simp [Process.stages], hcf, ?_⟩
    · intro s hs
      rw [show pipelineOutcome exec term (.tail c) =
            closeOutcome c (exec c) (term c).1 (term c).2 from rfl, h] at hs
      exact PromiseOutcome.noConfusion hs
    · rw [show pipelineOutcome exec term (.tail c) =
            closeOutcome c (exec c) (term c).1 (term c).2 from rfl, h]
  | piped cmd next ih =>
    by_cases hcmd : stageFails term cmd
    · have h := closeOutcome_of_fails cmd "" (term cmd).1 (term cmd).2 hcmd
      have hout : pipelineOutcome exec term (.piped cmd next) =
          .aborted (closeErrorMessage cmd (term cmd).1 (term cmd).2) := by
        unfold pipelineOutcome
        rw [h]
      refine ⟨?_, cmd, by simp [Process.stages], hcmd, hout⟩
      intro s hs
      rw [hout] at hs
      exact PromiseOutcome.noConfusion hs
    · have hnext : ∃ c ∈ Process.stages next, stageFails term c := by
        obtain ⟨c, hc, hcf⟩ := hfail
        rcases (by simpa [Process.stages] using hc : c = cmd ∨ c ∈ Process.stages next)
          with hceq | hcm
        · exact absurd (hceq ▸ hcf) hcmd
        · exact ⟨c, hcm, hcf⟩
      obtain ⟨hnores, c, hcm, hcf, hcout⟩ := ih hnext
      have hpass : closeOutcome cmd "" (term cmd).1 (term cmd).2 = .resolved "" := by
        unfold closeOutcome
        rw [if_neg]
        intro hor
        rcases hor with h0 | hsig
        · exact hcmd (Or.inl h0)
        · exact hcmd (Or.inr (Option.isSome_iff_ne_none.mp hsig))
      have hout : pipelineOutcome exec term (.piped cmd next) =
          pipelineOutcome exec term next := by
        rw [show pipelineOutcome exec term (.piped cmd next) =
            (match closeOutcome cmd "" (term cmd).1 (term cmd).2 with
             | .aborted e => .aborted e
             | .resolved _ => pipelineOutcome exec term next) from rfl, hpass]
      refine ⟨?_, c, by simp [Process.stages, hcm], hcf, by rw [hout]; exact hcout⟩
      intro s hs
      rw [hout] at hs
      exact hnores s hs

/-- Witness for C5: in the pipeline `zfs send -Rw … | zfs recv …` whose
receive stage exits with code 1, the awaited pipeline aborts with the error
naming the receive command. -/
theorem pipeline_failure_propagates_witness :
    (∀ s, pipelineOutcome (fun _ => "")
        (fun cmd => if cmd == "zfs recv -F -d -x mountpoint tank" then (1, none) else (0, none))
        (.piped "zfs send -Rw tank@s1" (.tail "zfs recv -F -d -x mountpoint tank"))
      ≠ .resolved s) ∧
    ∃ c, c ∈ Process.stages
        (.piped "zfs send -Rw tank@s1" (.tail "zfs recv -F -d -x mountpoint tank")) ∧
      stageFails
        (fun cmd => if cmd == "zfs recv -F -d -x mountpoint tank" then (1, none) else (0, none)) c ∧
      pipelineOutcome (fun _ => "")
        (fun cmd => if cmd == "zfs recv -F -d -x mountpoint tank" then (1, none) else (0, none))
        (.piped "zfs send -Rw tank@s1" (.tail "zfs recv -F -d -x mountpoint tank")) =
        .aborted (closeErrorMessage c
          ((fun cmd => if cmd == "zfs recv -F -d -x mountpoint tank" then ((1 : Int), (none : Option String)) else (0, none)) c).1
          ((fun cmd => if cmd == "zfs recv -F -d -x mountpoint tank" then ((1 : Int), (none : Option String)) else (0, none)) c).2) :=
  pipeline_failure_propagates (fun _ => "")
    (fun cmd => if cmd == "zfs recv -F -d -x mountpoint tank" then (1, none) else (0, none))
    (.piped "zfs send -Rw tank@s1" (.tail "zfs recv -F -d -x mountpoint tank"))
    ⟨"zfs recv -F -d -x mountpoint tank", by simp [Process.stages], by decide⟩

/-! ## SubCommand (src/src/SubCommand.js)

`SubCommand.launch` runs `accessibleFilesystems()` once for the whole
invocation and calls `logger.exit(...)` — terminating the process — when it
returns false; only otherwise does `run()` process the targets.
`machineFilesystems` is the run-scoped `zfs list` snapshot
(`ZfsFilesystem.#zfsFilesystemArray`), `primaryArgs` the target names and
`archiveArg` the `-a` argument. -/

namespace SubCommand

/-- Embedding of `SubCommand.accessibleFilesystems`: duplicate-target check
(`indexOf(primaryArgs[index]) != index`), then existence of every primary,
then (unless `archive` is false) existence of the archive filesystem.
Returns the boolean and the `logger.error` message of the first failing
check, if any. -/
def accessibleFilesystems (machineFilesystems primaryArgs : List String)
    (archiveArg : String) (archive : Bool := true) : Bool × Option String :=
  match (List.range primaryArgs.length).find?
      (fun index => primaryArgs.indexOf (primaryArgs.getD index "") != index) with
  | some index =>
    (false, some ("A primary ZFS filesystem is duplicated: " ++ primaryArgs.getD index ""))
  | none =>
    match primaryArgs.find? (fun primaryArg => !(machineFilesystems.contains primaryArg)) with
    | some primaryArg =>
      (false, some ("A primary ZFS filesystem is not exist: " ++ primaryArg))
    | none =>
      if archive && !(machineFilesystems.contains archiveArg) then
        (false, some ("An archive ZFS filesystem is not exist: " ++ archiveArg))
      else
        (true, none)

/-- Result of `SubCommand.launch`: either `logger.exit` terminated the
process, or `run()` processed the listed targets in order. -/
inductive LaunchResult where
  | exited (message : String)
  | ran (processedTargets : List String)
deriving DecidableEq

/-- Embedding of `SubCommand.launch` for the backup sub-command: exit when the
accessibility precheck fails, otherwise `BackupSubCommand.run` backs up every
target in argument order. -/
def launch (machineFilesystems primaryArgs : List String) (archiveArg : String) :
    LaunchResult :=
  if (accessibleFilesystems machineFilesystems primaryArgs archiveArg).1 then
    .ran primaryArgs
  else
    .exited "Any ZFS filesystems are not accessible."

end SubCommand

/-- Counterexample to C6 as stated: with filesystems `["tank", "arc"]`,
targets `["tank", "ghost"]` and archive `"arc"`, only the target `"ghost"`
fails the precheck, yet the whole invocation exits — the remaining valid
target `"tank"` is not processed. -/
theorem launch_aborts_on_one_bad_target :
    SubCommand.launch ["tank", "arc"] ["tank", "ghost"] "arc" =
      .exited "Any ZFS filesystems are not accessible." := by
  decide

/-- C6 amended: the accessibility precheck is global, not per-target — when
it fails (duplicated primary, missing primary, or missing archive),
`launch` terminates the whole invocation with a logged error and processes
no target at all; only when every check passes does the run process all
targets in argument order. -/
theorem launch_all_or_nothing (machineFilesystems primaryArgs : List String)
    (archiveArg : String) :
    ((SubCommand.accessibleFilesystems machineFilesystems primaryArgs archiveArg).1 = false →
      SubCommand.launch machineFilesystems primaryArgs archiveArg =
        .exited "Any ZFS filesystems are not accessible.") ∧
    ((SubCommand.accessibleFilesystems machineFilesystems primaryArgs archiveArg).1 = true →
      SubCommand.launch machineFilesystems primaryArgs archiveArg = .ran primaryArgs) := by
  constructor
  · intro h
    unfold SubCommand.launch
    rw [h]
    rfl
  · intro h
    unfold SubCommand.launch
    rw [h]
    rfl

/-- Witness for the amended C6: a failing precheck (missing target
`"ghost"`) exits the whole invocation. -/
theorem launch_all_or_nothing_witness :
    SubCommand.launch ["tank", "arc"] ["tank", "ghost", "extra"] "arc" =
      .exited "Any ZFS filesystems are not accessible." :=
  (launch_all_or_nothing ["tank", "arc"] ["tank", "ghost", "extra"] "arc").1 (by decide)

/-! ## DiffSubCommand (src/src/SubCommand.js)

`DiffSubCommand.accessibleFilesystems` first runs the base precheck and then
requires, for every target, that the archive mirror dataset
`archiveArg ++ "/" ++ target` exists in the run-scoped filesystem list; the
first missing mirror is reported with `logger.error` and makes the precheck
fail, whereupon `launch` exits the whole invocation. -/

namespace DiffSubCommand

/-- Embedding of `DiffSubCommand.accessibleFilesystems`. -/
def accessibleFilesystems (machineFilesystems primaryArgs : List String)
    (archiveArg : String) : Bool × Option String :=
  if !(SubCommand.accessibleFilesystems machineFilesystems primaryArgs archiveArg).1 then
    SubCommand.accessibleFilesystems machineFilesystems primaryArgs archiveArg
  else
    match primaryArgs.find?
        (fun primaryArg => !(machineFilesystems.contains (archiveArg ++ "/" ++ primaryArg))) with
    | some primaryArg =>
      (false, some (primaryArg ++ " is not archived on " ++ archiveArg ++ "/" ++ primaryArg
        ++ " yet."))
    | none => (true, none)

/-- Embedding of `SubCommand.launch` with the diff sub-command's overridden precheck. -/
def launch (machineFilesystems primaryArgs : List String) (archiveArg : String) :
    SubCommand.LaunchResult :=
  if (accessibleFilesystems machineFilesystems primaryArgs archiveArg).1 then
    .ran primaryArgs
  else
    .exited "Any ZFS filesystems are not accessible."

end DiffSubCommand

/-- Counterexample to C9 as stated: with filesystems `["tank", "arc"]`,
target `["tank"]` and archive `"arc"`, the mirror `"arc/tank"` does not
exist; the diff invocation does not return normally — it exits during the
accessibility precheck (after logging the not-yet-archived report), so the
run is aborted. -/
theorem diff_launch_aborts_on_missing_mirror :
    DiffSubCommand.launch ["tank", "arc"] ["tank"] "arc" =
      .exited "Any ZFS filesystems are not accessible." ∧
    (DiffSubCommand.accessibleFilesystems ["tank", "arc"] ["tank"] "arc").2 =
      some "tank is not archived on arc/tank yet." := by
  decide

/-- C9 amended: a target whose archive mirror dataset does not exist is
detected in the diff sub-command's accessibility precheck, which logs
`<target> is not archived on <archive>/<target> yet.` and fails without
throwing; `launch` then terminates the whole diff invocation instead of
reporting and continuing. -/
theorem diff_missing_mirror_exits (machineFilesystems primaryArgs : List String)
    (archiveArg target : String)
    (hbase : (SubCommand.accessibleFilesystems machineFilesystems primaryArgs archiveArg).1
      = true)
    (hfind : primaryArgs.find?
        (fun primaryArg => !(machineFilesystems.contains (archiveArg ++ "/" ++ primaryArg)))
      = some target) :
    (DiffSubCommand.accessibleFilesystems machineFilesystems primaryArgs archiveArg).2 =
      some (target ++ " is not archived on " ++ archiveArg ++ "/" ++ target ++ " yet.") ∧
    DiffSubCommand.launch machineFilesystems primaryArgs archiveArg =
      .exited "Any ZFS filesystems are not accessible." := by
  have hacc : DiffSubCommand.accessibleFilesystems machineFilesystems primaryArgs archiveArg =
      (false, some (target ++ " is not archived on " ++ archiveArg ++ "/" ++ target
        ++ " yet.")) := by
    unfold DiffSubCommand.accessibleFilesystems
    rw [hbase]
    simp only [Bool.not_true, Bool.false_eq_true, if_false, hfind]
  refine ⟨by rw [hacc], ?_⟩
  unfold DiffSubCommand.launch
  rw [hacc]
  rfl

/-- Witness for the amended C9 at a concrete input. -/
theorem diff_missing_mirror_exits_witness :
    (DiffSubCommand.accessibleFilesystems ["tank", "data", "arc", "arc/tank"]
        ["tank", "data"] "arc").2 =
      some ("data" ++ " is not archived on " ++ "arc" ++ "/" ++ "data" ++ " yet.") ∧
    DiffSubCommand.launch ["tank", "data", "arc", "arc/tank"] ["tank", "data"] "arc" =
      .exited "Any ZFS filesystems are not accessible." :=
  diff_missing_mirror_exits ["tank", "data", "arc", "arc/tank"] ["tank", "data"] "arc" "data"
    (by decide) (by decide)

/-! ## Retention (src/src/ZfsFilesystem.js, `getSnapshotsByGenerations`,
`#destroySnapshot`, `#destroySnapshotNumber`, `purgeSnapshots`)

JavaScript `Date` values become `Int` milliseconds.  Parsing a snapshot
name's embedded timestamp (`Snapshot.isCorrectedName` plus
`Snapshot.getDate`) is an oracle `parse : String → Option Int`; `none`
models a name that fails the naming grammar (a foreign snapshot). -/

def msPerHour : Int := 3600000

def msPerDay : Int := 86400000

/-- Model of `new Date(-8640000000000000)`, the minimum JavaScript date. -/
def jsMinDate : Int := -8640000000000000

/-- The generation buckets of `SnapshotList.getSnapshotsByGenerations`. -/
structure Generations where
  youngSnapshots : List String
  middleSnapshots : List String
  oldSnapshots : List String
deriving DecidableEq

namespace SnapshotList

/-- The bucket loop of `getSnapshotsByGenerations`: skip names that fail the
grammar; young if newer than `hourLimit`, middle if newer than `dayLimit`,
old otherwise. -/
def generationsLoop (parse : String → Option Int) (hourLimit dayLimit : Int) :
    List String → Generations
  | [] => ⟨[], [], []⟩
  | snapshotName :: rest =>
    let g := generationsLoop parse hourLimit dayLimit rest
    match parse snapshotName with
    | none => g
    | some snapshotTime =>
      if snapshotTime > hourLimit then
        ⟨snapshotName :: g.youngSnapshots, g.middleSnapshots, g.oldSnapshots⟩
      else if snapshotTime > dayLimit then
        ⟨g.youngSnapshots, snapshotName :: g.middleSnapshots, g.oldSnapshots⟩
      else
        ⟨g.youngSnapshots, g.middleSnapshots, snapshotName :: g.oldSnapshots⟩

/-- Embedding of `SnapshotList.getSnapshotsByGenerations`:
`hourLimit = now - SNAPSHOT_KEEP_HOURS` hours,
`dayLimit = now - SNAPSHOT_KEEP_DAYS` days. -/
def getSnapshotsByGenerations (parse : String → Option Int) (now : Int)
    (snapshots : List String) : Generations :=
  generationsLoop parse
    (now - (Configure.SNAPSHOT_KEEP_HOURS : Int) * msPerHour)
    (now - (Configure.SNAPSHOT_KEEP_DAYS : Int) * msPerDay)
    snapshots

end SnapshotList

namespace ZfsFilesystem

/-- The loop of `ZfsFilesystem.#destroySnapshot` with the running
`earliestSnapshotDate` watermark: keep a snapshot whose date is on or after
the watermark (moving the watermark to that date plus `offset` days), destroy
one whose date is before the watermark; names failing the grammar are
skipped.  Returns the destroyed names in order. -/
def destroySnapshotLoop (parse : String → Option Int) (offset : Int) :
    Int → List String → List String
  | _, [] => []
  | earliestSnapshotDate, snapshotName :: rest =>
    match parse snapshotName with
    | none => destroySnapshotLoop parse offset earliestSnapshotDate rest
    | some snapshotDate =>
      if snapshotDate ≥ earliestSnapshotDate then
        destroySnapshotLoop parse offset (snapshotDate + offset * msPerDay) rest
      else
        snapshotName :: destroySnapshotLoop parse offset earliestSnapshotDate rest

/-- Embedding of `ZfsFilesystem.#destroySnapshot(snapshots, offset)`. -/
def destroySnapshot (parse : String → Option Int) (snapshots : List String)
    (offset : Int) : List String :=
  destroySnapshotLoop parse offset jsMinDate snapshots

/-- Embedding of `ZfsFilesystem.#destroySnapshotNumber(snapshots, number)`:
`destroyNumber = snapshots.length - number` iterations, each destroying
`snapshots[number]` — the loop body does not depend on the loop counter. -/
def destroySnapshotNumber (snapshots : List String) (number : Nat) : List String :=
  List.replicate (snapshots.length - number) (snapshots.getD number "undefined")

/-- Embedding of `ZfsFilesystem.purgeSnapshots`: bucket by generations, decimate the
middle generation at 1 day, the old generation at 7 days, then cap the old
generation at `SNAPSHOT_KEEP_WEEKS`.  Returns every issued destroy call, in
order. -/
def purgeSnapshots (parse : String → Option Int) (now : Int)
    (snapshots : List String) : List String :=
  let snapshotsByGeneration := SnapshotList.getSnapshotsByGenerations parse now snapshots
  destroySnapshot parse snapshotsByGeneration.middleSnapshots 1
    ++ destroySnapshot parse snapshotsByGeneration.oldSnapshots 7
    ++ destroySnapshotNumber snapshotsByGeneration.oldSnapshots Configure.SNAPSHOT_KEEP_WEEKS

end ZfsFilesystem

/-- Modelled from the spec: the effect on the external engine's snapshot
list of the issued `zfs destroy` calls (§6) — the named snapshots are gone. -/
def applyDestroys (snapshots destroyed : List String) : List String :=
  snapshots.filter (fun s => !(destroyed.contains s))

/-- C7 failing input: 106 old-generation snapshots `s0..s105` with the
configured cap 104.  The second old-generation pass issues two destroy calls,
both for `s104` — the same snapshot twice (the second call targets a snapshot
that no longer exists), a snapshot among the newest 104; the oldest excess
`s0`, `s1` is never destroyed. -/
theorem destroySnapshotNumber_failing_input :
    ZfsFilesystem.destroySnapshotNumber
        ((List.range 106).map (fun i => "s" ++ toString i)) Configure.SNAPSHOT_KEEP_WEEKS
      = ["s104", "s104"] := by
  rfl

/-- Decimal digits to a number, for reading the index out of the sample
snapshot names below. -/
def purgeDigits : Nat → List Char → Option Nat
  | acc, [] => some acc
  | acc, c :: cs =>
    if 48 ≤ c.toNat ∧ c.toNat ≤ 57 then purgeDigits (acc * 10 + (c.toNat - 48)) cs
    else none

/-- The date oracle of the C8 failing input: `"s" ++ i` was created
`(7 * i - 800)` days before `now = 0` — all old-generation, spaced exactly
seven days so the decimation pass keeps every one. -/
def purgeParse : String → Option Int :=
  fun n => (purgeDigits 0 n.data.tail).map (fun i => ((i : Int) * 7 - 800) * msPerDay)

/-- The snapshot list of the C8 failing input: 107 snapshots `s0..s106`. -/
def purgeSample : List String :=
  (List.range 107).map (fun i => "s" ++ toString i)

/-- C8 failing input evaluated: the first `purgeSnapshots` run issues three
destroy calls, all for `s104`; immediately re-running `purgeSnapshots` on the
resulting list issues two further destroy calls (for `s105`), not zero — the
purge is not idempotent. -/
theorem purgeSnapshots_not_idempotent :
    ZfsFilesystem.purgeSnapshots purgeParse 0 purgeSample = ["s104", "s104", "s104"] ∧
    ZfsFilesystem.purgeSnapshots purgeParse 0
        (applyDestroys purgeSample
          (ZfsFilesystem.purgeSnapshots purgeParse 0 purgeSample))
      = ["s105", "s105"] := by
  constructor
  · rfl
  · rfl

/-! ## Snapshot (src/src/Snapshot.js)

`Snapshot.#now` is a static field initialized once, at module load, from
`Snapshot.#getNowDate()`; `Snapshot.createSnapshot()` builds every snapshot
name from the prefix and that static string.  We model the wall clock as
`JsDate` values and a process run as the module state produced at load time;
`createSnapshot` receives the wall-clock date of the moment of the call as a
parameter, which the source never consults. -/

/-- The local-time fields JavaScript's `Date` accessors return
(`getMonth()` is 0-based). -/
structure JsDate where
  fullYear : Nat
  month : Nat
  date : Nat
  hours : Nat
  minutes : Nat
  seconds : Nat
deriving DecidableEq

/-- JavaScript's `String.prototype.padStart(n, c)`. -/
def padStart (s : String) (n : Nat) (c : Char) : String :=
  String.mk (List.replicate (n - s.length) c) ++ s

namespace Snapshot

/-- Embedding of `Snapshot.#getNowDate()`: format the current local time as
`YYYY-MM-DD-HHMMSS`. -/
def getNowDate (d : JsDate) : String :=
  let fy := padStart (toString d.fullYear) 4 '0'
  let mo := padStart (toString (d.month + 1)) 2 '0'
  let dd := padStart (toString d.date) 2 '0'
  let h := padStart (toString d.hours) 2 '0'
  let mi := padStart (toString d.minutes) 2 '0'
  let s := padStart (toString d.seconds) 2 '0'
  fy ++ "-" ++ mo ++ "-" ++ dd ++ "-" ++ h ++ mi ++ s

/-- The module-level static state of `Snapshot`: the `#now` string. -/
structure ModuleState where
  nowString : String
deriving DecidableEq

/-- Module load: `static #now = Snapshot.#getNowDate()`, evaluated once at
the load-time clock. -/
def moduleInit (loadTime : JsDate) : ModuleState :=
  ⟨getNowDate loadTime⟩

/-- Embedding of `Snapshot.createSnapshot()`: the name is
`` `${Configure.PREFIX_SNAPSHOT}-${Snapshot.#now}` ``.  The `callTime`
parameter is the wall clock at the moment of the call; the source reads only
the static `#now`, never the clock. -/
def createSnapshot (state : ModuleState) (callTime : JsDate) : String :=
  Configure.SNAPSHOT_NAME_HEAD ++ "-" ++ state.nowString

/-- The long name `ZfsUtilities.takeSnapshot` gives the snapshot taken by
`ZfsFilesystem.takeNewSnapshot`: `filesystem@<createSnapshot().name>`. -/
def takeNewSnapshotLongName (state : ModuleState) (callTime : JsDate)
    (filesystem : String) : String :=
  filesystem ++ "@" ++ createSnapshot state callTime

end Snapshot

/-- C10: within one process run (one module load), `createSnapshot` is a
constant function of the call time: any two calls — and hence any two
`takeNewSnapshot` calls, on any filesystems, any wall-clock time apart —
produce the identical snapshot name, namely the prefix joined to the
load-time timestamp. -/
theorem createSnapshot_constant_per_run :
    ∀ (loadTime t1 t2 : JsDate) (fs1 fs2 : String),
      Snapshot.createSnapshot (Snapshot.moduleInit loadTime) t1 =
        Snapshot.createSnapshot (Snapshot.moduleInit loadTime) t2 ∧
      Snapshot.createSnapshot (Snapshot.moduleInit loadTime) t1 =
        Configure.SNAPSHOT_NAME_HEAD ++ "-" ++ Snapshot.getNowDate loadTime ∧
      (Snapshot.takeNewSnapshotLongName (Snapshot.moduleInit loadTime) t1 fs1 =
          fs1 ++ "@" ++ (Configure.SNAPSHOT_NAME_HEAD ++ "-" ++ Snapshot.getNowDate loadTime) ∧
        Snapshot.takeNewSnapshotLongName (Snapshot.moduleInit loadTime) t2 fs2 =
          fs2 ++ "@" ++ (Configure.SNAPSHOT_NAME_HEAD ++ "-" ++ Snapshot.getNowDate loadTime)) :=
  fun _ _ _ _ _ => ⟨rfl, rfl, rfl, rfl⟩

end ElephantBackup
